import Mathlib

set_option maxHeartbeats 1000000

/-!
Shallow embedding of `src/python/twitter/thermos/base/ckpt.py`
(class `TaskCkptDispatcher`).

Modelling conventions:
- Thrift struct fields are optional in the Python runtime (unset = `None`);
  they are embedded as `Option _` fields.
- Python exceptions become an error type `CkptError`.  The dispatcher's own
  error classes (`ErrorRecoveringState`, `InvalidStateTransition`,
  `InvalidSequenceNumber`) are separate constructors from the Python built-in
  exceptions (`KeyError`, `TypeError`, `IndexError`) that some code paths can
  raise, because `from_file` catches only `TaskCkptDispatcher.Error`.
- In-place mutation of the state object is made explicit: each operation
  returns the outcome together with the state object as it stands when the
  call returns or when the exception propagates (Python mutation survives a
  raise, and the embedding must be able to express that).
- Handler callbacks are opaque: a handler is a `Nat` identifier and an
  invocation is recorded as a `HandlerCall` event, in invocation order.
- Python 2 cross-type comparisons involving `None` (where `None` is smaller
  than every integer) are embedded by explicit `Option Int` comparison
  functions.
- Logging calls (`log.debug` / `log.error`) are not modelled.
-/

/-- `ProcessRunState` enum from the thrift schema (used by `ckpt.py`). -/
inductive ProcessRunState
  | WAITING
  | FORKED
  | RUNNING
  | FINISHED
  | FAILED
  | KILLED
  | LOST
deriving DecidableEq, Repr

/-- `TaskState` enum from the thrift schema (history / task outcome state). -/
inductive TaskState
  | active
  | success
  | failed
deriving DecidableEq, Repr

/-- `RunnerHeader` thrift struct.  `ckpt.py` only stores it and tests it for
presence, never inspecting the contents, so a single payload field suffices. -/
structure RunnerHeader where
  task_id : Option String := none
deriving DecidableEq, Repr

/-- `ProcessState` thrift struct: one run of a process, with all fields
optional (`None` when unset), exactly the fields `ckpt.py` reads or writes. -/
structure ProcessState where
  seq : Option Int := none
  process : Option String := none
  run_state : Option ProcessRunState := none
  fork_time : Option Int := none
  runner_pid : Option Int := none
  start_time : Option Int := none
  pid : Option Int := none
  stop_time : Option Int := none
  return_code : Option Int := none
deriving DecidableEq, Repr

/-- `ProcessHistory` thrift struct: the per-process run list plus the
history-level state.  `process` is optional because `ckpt.py` copies it from
the (optional) `process` field of a `ProcessState` update. -/
structure ProcessHistory where
  process : Option String := none
  runs : List ProcessState := []
  state : Option TaskState := none
deriving DecidableEq, Repr

/-- `PortAllocation`-like payload of `TaskRunnerCkpt.allocated_port`. -/
structure PortAllocation where
  port_name : Option String := none
  port : Option Int := none
deriving DecidableEq, Repr

/-- Payload of `TaskRunnerCkpt.state_update` (task-level state change). -/
structure TaskStateUpdate where
  state : Option TaskState := none
deriving DecidableEq, Repr

/-- Payload of `TaskRunnerCkpt.history_state_update` (process-history-level
state change). -/
structure TaskRunStateUpdate where
  process : Option String := none
  state : Option TaskState := none
deriving DecidableEq, Repr

/-- `TaskRunnerCkpt` thrift union-like struct: one checkpoint record, with
each variant an optional field (unset = `None`). -/
structure TaskRunnerCkpt where
  runner_header : Option RunnerHeader := none
  allocated_port : Option PortAllocation := none
  state_update : Option TaskStateUpdate := none
  history_state_update : Option TaskRunStateUpdate := none
  process_state : Option ProcessState := none
deriving DecidableEq, Repr

/-- `TaskRunnerState` thrift struct: the aggregate task state.  `processes`
is a Python dict keyed by the (optional) process name; it is embedded as an
insertion-ordered association list.  `ports` starts out unset (`None`) and is
lazily initialized to an empty dict by the port-allocation branch. -/
structure TaskRunnerState where
  header : Option RunnerHeader := none
  ports : Option (List (Option String × Option Int)) := none
  processes : List (Option String × ProcessHistory) := []
  state : Option TaskState := none
deriving DecidableEq, Repr

/-- Errors raised by the code paths of `ckpt.py`.  The first three are the
dispatcher's own error classes (subclasses of `TaskCkptDispatcher.Error`);
the last three are Python built-in exceptions that specific code paths can
raise (`state.processes[name]` lookup, `None + 1`, `runs[-1]` on an empty
list) and that `TaskCkptDispatcher.Error` handlers do not catch. -/
inductive CkptError
  | errorRecoveringState
  | invalidStateTransition
  | invalidSequenceNumber
  | keyError
  | typeError
  | indexError
deriving DecidableEq, Repr

/-- The dispatcher's registered handlers (`TaskCkptDispatcher.__init__`).
Handlers are opaque identifiers; `state_handlers` is the dict from run state
to the list of handlers registered for it, in registration order. -/
structure Dispatcher where
  state_handlers : List (ProcessRunState × List Nat) := []
  universal_handlers : List Nat := []
  port_handlers : List Nat := []
deriving DecidableEq, Repr

/-- One synchronous handler invocation performed by the dispatcher. -/
inductive HandlerCall
  | state (handler : Nat) (update : ProcessState)
  | port (handler : Nat) (name : Option String) (port : Option Int)
deriving DecidableEq, Repr

/-- Association-list lookup for the `state_handlers` dict. -/
def lookupHandlers : List (ProcessRunState × List Nat) → ProcessRunState → Option (List Nat)
  | [], _ => none
  | (k, v) :: rest, key => if k = key then some v else lookupHandlers rest key

/-- `_run_state_dispatch`: all universal handlers, then the handlers
registered for the resulting run state (`self._state_handlers.get(state, [])`),
each called with the applied update.  `st` may be `none` because
`update_task_state` dispatches `process_state_update.run_state` verbatim. -/
def run_state_dispatch (d : Dispatcher) (st : Option ProcessRunState) (u : ProcessState) :
    List HandlerCall :=
  d.universal_handlers.map (fun h => .state h u) ++
    (match st with
     | none => []
     | some s => (lookupHandlers d.state_handlers s).getD []).map (fun h => .state h u)

/-- `_run_port_dispatch`: every registered port handler, in order, called
with the allocated name and port. -/
def run_port_dispatch (d : Dispatcher) (name : Option String) (port : Option Int) :
    List HandlerCall :=
  d.port_handlers.map (fun h => .port h name port)

/-- The thrift field names touched by `copy_fields` / `check_*_fields`. -/
inductive CkptField
  | seq
  | run_state
  | process
  | fork_time
  | runner_pid
  | start_time
  | pid
  | stop_time
  | return_code
deriving DecidableEq, Repr

/-- `process_state.__dict__[field] is not None` for one field. -/
def fieldPresent (ps : ProcessState) : CkptField → Bool
  | .seq => ps.seq.isSome
  | .run_state => ps.run_state.isSome
  | .process => ps.process.isSome
  | .fork_time => ps.fork_time.isSome
  | .runner_pid => ps.runner_pid.isSome
  | .start_time => ps.start_time.isSome
  | .pid => ps.pid.isSome
  | .stop_time => ps.stop_time.isSome
  | .return_code => ps.return_code.isSome

/-- `process_state.__dict__[field] = copy.deepcopy(update.__dict__[field])`
for one field (values have value semantics here, so deep copy is identity). -/
def setFieldFrom (dst src : ProcessState) : CkptField → ProcessState
  | .seq => { dst with seq := src.seq }
  | .run_state => { dst with run_state := src.run_state }
  | .process => { dst with process := src.process }
  | .fork_time => { dst with fork_time := src.fork_time }
  | .runner_pid => { dst with runner_pid := src.runner_pid }
  | .start_time => { dst with start_time := src.start_time }
  | .pid => { dst with pid := src.pid }
  | .stop_time => { dst with stop_time := src.stop_time }
  | .return_code => { dst with return_code := src.return_code }

/-- `check_empty_fields` succeeds (does not raise) iff every listed field is
unset on `ps`. -/
def check_empty_fields (ps : ProcessState) (fields : List CkptField) : Bool :=
  fields.all (fun f => !fieldPresent ps f)

/-- `check_nonempty_fields` succeeds (does not raise) iff every listed field
is set on `ps`. -/
def check_nonempty_fields (ps : ProcessState) (fields : List CkptField) : Bool :=
  fields.all (fun f => fieldPresent ps f)

/-- `copy_fields`: require every listed field present on the update
(`check_nonempty_fields`, raising `ErrorRecoveringState` otherwise), then
copy each listed field from the update onto the target. -/
def copy_fields (ps u : ProcessState) (fields : List CkptField) :
    Except CkptError ProcessState :=
  if check_nonempty_fields u fields then
    .ok (fields.foldl (fun acc f => setFieldFrom acc u f) ps)
  else
    .error .errorRecoveringState

/-- `check_and_copy_fields`: `check_empty_fields` on the target (raising
`ErrorRecoveringState` if any listed field is already present), then
`copy_fields`.  Defined in `ckpt.py` but not called by `update_task_state`. -/
def check_and_copy_fields (ps u : ProcessState) (fields : List CkptField) :
    Except CkptError ProcessState :=
  if check_empty_fields ps fields then
    copy_fields ps u fields
  else
    .error .errorRecoveringState

/-- `is_terminal`: the update's `run_state` is one of FINISHED, FAILED,
KILLED, LOST (false when `run_state` is unset, since `None` is not in the
list). -/
def is_terminal (ps : ProcessState) : Bool :=
  match ps.run_state with
  | some .FINISHED => true
  | some .FAILED => true
  | some .KILLED => true
  | some .LOST => true
  | _ => false

deriving instance DecidableEq for Except

/-- Outcome of `update_task_state`: the returned (or raised) result, the
process-state record as mutated in place, and the handler calls performed. -/
structure TaskStateResult where
  result : Except CkptError Bool
  ps : ProcessState
  events : List HandlerCall
deriving DecidableEq, Repr

/-- The required-field list of each transition branch of
`update_task_state` (one `required_fields` assignment per branch). -/
def requiredFields : ProcessRunState → List CkptField
  | .WAITING => [.seq, .run_state, .process]
  | .FORKED => [.seq, .run_state, .fork_time, .runner_pid]
  | .RUNNING => [.seq, .run_state, .start_time, .pid]
  | .FINISHED => [.seq, .run_state, .stop_time, .return_code]
  | .FAILED => [.seq, .run_state, .stop_time, .return_code]
  | .KILLED => [.seq, .run_state, .stop_time]
  | .LOST => [.seq, .run_state]

/-- The per-branch guard on the current record's run state in
`update_task_state`.  The WAITING branch performs no such check in the
source; the other branches raise `InvalidStateTransition` when the guard
fails. -/
def sourceOk : Option ProcessRunState → ProcessRunState → Bool
  | _, .WAITING => true
  | c, .FORKED => c = some .WAITING
  | c, .RUNNING => c = some .FORKED
  | c, .FINISHED => c = some .RUNNING
  | c, .FAILED => c = some .RUNNING
  | c, .KILLED => c = some .FORKED || c = some .RUNNING
  | c, .LOST => c = some .FORKED || c = some .RUNNING

/-- The sequence-number gate of `update_task_state` (lines 122-133):
`process_state.seq > 0 and process_state_update.seq <= process_state.seq`.
In Python 2, `None > 0` is false and the update's `seq` is already known to
be set when this test runs. -/
def seqGateBlocked (ps u : ProcessState) : Bool :=
  match ps.seq, u.seq with
  | some p, some n => decide (0 < p) && decide (n ≤ p)
  | _, _ => false

/-- The transition part of `update_task_state` (lines 141-208): equality
check, per-target-state guard, `copy_fields` of the branch's required
fields, then `_run_state_dispatch` with the update's run state (which the
source passes verbatim, even when unset). -/
def uts_transition (d : Dispatcher) (ps u : ProcessState) : TaskStateResult :=
  match u.run_state with
  | none => ⟨.ok true, ps, run_state_dispatch d none u⟩
  | some r =>
    if ps.run_state = some r then
      ⟨.error .invalidStateTransition, ps, []⟩
    else if sourceOk ps.run_state r then
      match copy_fields ps u (requiredFields r) with
      | .error e => ⟨.error e, ps, []⟩
      | .ok ps' => ⟨.ok true, ps', run_state_dispatch d (some r) u⟩
    else
      ⟨.error .invalidStateTransition, ps, []⟩

/-- `update_task_state(process_state, process_state_update, recovery)`:
sequence must be set on the update (`InvalidSequenceNumber` otherwise); a
stale sequence (`update.seq <= current.seq` with `current.seq > 0`) returns
`False` under recovery and raises `InvalidSequenceNumber` otherwise; then
the transition logic runs.  The non-contiguous-sequence warning is a log
call only and is not modelled. -/
def update_task_state (d : Dispatcher) (ps u : ProcessState) (recovery : Bool) :
    TaskStateResult :=
  match u.seq with
  | none => ⟨.error .invalidSequenceNumber, ps, []⟩
  | some _ =>
    if seqGateBlocked ps u then
      if recovery then ⟨.ok false, ps, []⟩
      else ⟨.error .invalidSequenceNumber, ps, []⟩
    else
      uts_transition d ps u

/-- Python dict lookup / membership for `state.processes` (returns `none`
when the key is absent, i.e. when `process not in state.processes`). -/
def lookupProc : List (Option String × ProcessHistory) → Option String →
    Option ProcessHistory
  | [], _ => none
  | (k, v) :: rest, key => if k = key then some v else lookupProc rest key

/-- Python dict assignment `state.processes[key] = v`: overwrite the existing
entry for `key` in place, or append a new entry (dicts preserve insertion
order). -/
def setProc : List (Option String × ProcessHistory) → Option String →
    ProcessHistory → List (Option String × ProcessHistory)
  | [], key, v => [(key, v)]
  | (k, w) :: rest, key, v =>
    if k = key then (k, v) :: rest else (k, w) :: setProc rest key v

/-- Python dict lookup for `state.ports`. -/
def lookupPort : List (Option String × Option Int) → Option String →
    Option (Option Int)
  | [], _ => none
  | (k, v) :: rest, key => if k = key then some v else lookupPort rest key

/-- Replace the last element of a run list: the in-place mutation of
`process_history.runs[-1]` performed through the aliased `process_state`. -/
def setLast : List ProcessState → ProcessState → List ProcessState
  | [], _ => []
  | [_], p => [p]
  | x :: y :: rest, p => x :: setLast (y :: rest) p

/-- Python 2 `a < b` on `Option Int` values, where `None` is smaller than
every integer (used by `would_update`'s `task_state.seq < process_update.seq`). -/
def pyLtOpt : Option Int → Option Int → Bool
  | none, none => false
  | none, some _ => true
  | some _, none => false
  | some a, some b => decide (a < b)

/-- Outcome of `update_runner_state`: the returned (or raised) result, the
aggregate state as it stands when the call returns or the exception
propagates, and the handler calls performed. -/
structure RunnerResult where
  result : Except CkptError Bool
  state : TaskRunnerState
  events : List HandlerCall
deriving DecidableEq, Repr

/-- `update_runner_state(state, runner_ckpt, recovery=False)`: classify the
record by its first populated variant (header, allocated port, task state
update, history state update, process state) and apply the corresponding
rule; translated clause by clause from the source.  In the process-state
case, `transition_to_waiting` appends the seeded run (and registers the new
`ProcessHistory`) *before* `update_task_state` runs, and rebinds the local
`process_update` to the synthesized WAITING update, exactly as the source
does. -/
def update_runner_state (d : Dispatcher) (state : TaskRunnerState)
    (ck : TaskRunnerCkpt) (recovery : Bool) : RunnerResult :=
  -- case 1: runner_header
  match ck.runner_header with
  | some hdr =>
    match state.header with
    | some _ => ⟨.error .errorRecoveringState, state, []⟩
    | none => ⟨.ok true, { state with header := some hdr }, []⟩
  | none =>
  -- case 2: allocated_port
  match ck.allocated_port with
  | some ap =>
    let ports := state.ports.getD []
    match lookupPort ports ap.port_name with
    | some p =>
      if p ≠ ap.port then ⟨.error .errorRecoveringState, state, []⟩
      else ⟨.ok false, state, []⟩
    | none =>
      ⟨.ok true, { state with ports := some (ports ++ [(ap.port_name, ap.port)]) },
        run_port_dispatch d ap.port_name ap.port⟩
  | none =>
  -- case 3: state_update
  match ck.state_update with
  | some su =>
    if state.state ≠ su.state then
      ⟨.ok true, { state with state := su.state }, []⟩
    else ⟨.ok false, state, []⟩
  | none =>
  -- case 4: history_state_update (`state.processes[process_name]` raises
  -- KeyError when the process is unknown)
  match ck.history_state_update with
  | some hu =>
    match lookupProc state.processes hu.process with
    | none => ⟨.error .keyError, state, []⟩
    | some hist =>
      if hist.state ≠ hu.state then
        ⟨.ok true,
          { state with
              processes := setProc state.processes hu.process { hist with state := hu.state } },
          []⟩
      else ⟨.ok false, state, []⟩
  | none =>
  -- case 5: process_state (an entirely empty record is logged and reported
  -- as not applied)
  match ck.process_state with
  | none => ⟨.ok false, state, []⟩
  | some pu =>
    match lookupProc state.processes pu.process with
    | none =>
      -- Unknown process: new ProcessHistory, then transition_to_waiting
      -- (run seeded at seq 0, synthesized WAITING update rebinding the
      -- local process_update), then the state machine.
      let ps : ProcessState := { seq := some 0, process := pu.process, run_state := none }
      let upd : ProcessState := { ps with run_state := some .WAITING }
      let hist : ProcessHistory :=
        { process := pu.process, runs := [ps], state := some .active }
      let state1 := { state with processes := setProc state.processes pu.process hist }
      let r := update_task_state d ps upd recovery
      ⟨r.result,
        { state1 with
            processes := setProc state1.processes pu.process { hist with runs := [r.ps] } },
        r.events⟩
    | some hist =>
      -- Known process: the update pertains to the current (last) run.
      match hist.runs.getLast? with
      | none => ⟨.error .indexError, state, []⟩
      | some tail =>
        if is_terminal tail then
          if is_terminal pu then ⟨.error .errorRecoveringState, state, []⟩
          else
            -- terminal => nonterminal: transition_to_waiting with
            -- seq = runs[-1].seq (run appended first), then
            -- `process_update.seq = process_update.seq + 1`
            -- (TypeError when the tail seq is unset).
            let ps : ProcessState :=
              { seq := tail.seq, process := pu.process, run_state := none }
            let hist1 := { hist with runs := hist.runs ++ [ps] }
            let state1 :=
              { state with processes := setProc state.processes pu.process hist1 }
            match tail.seq with
            | none => ⟨.error .typeError, state1, []⟩
            | some n =>
              let upd : ProcessState :=
                { ps with run_state := some .WAITING, seq := some (n + 1) }
              let r := update_task_state d ps upd recovery
              ⟨r.result,
                { state1 with
                    processes := setProc state1.processes pu.process
                      { hist1 with runs := hist.runs ++ [r.ps] } },
                r.events⟩
        else
          let r := update_task_state d tail pu recovery
          ⟨r.result,
            { state with
                processes := setProc state.processes pu.process
                  { hist with runs := setLast hist.runs r.ps } },
            r.events⟩

/-- `would_update(state, runner_ckpt)`: `False` when the record carries no
`process_state`; `True` for a never-seen process; otherwise
`runs[-1].seq < process_update.seq` (Python 2 comparison; `runs[-1]` raises
IndexError on an empty run list). -/
def would_update (state : TaskRunnerState) (ck : TaskRunnerCkpt) :
    Except CkptError Bool :=
  match ck.process_state with
  | none => .ok false
  | some pu =>
    match lookupProc state.processes pu.process with
    | none => .ok true
    | some hist =>
      match hist.runs.getLast? with
      | none => .error .indexError
      | some tail => .ok (pyLtOpt tail.seq pu.seq)

/-- The fresh state built by `from_file`:
`TaskRunnerState(processes = {})`, every other field unset. -/
def initialState : TaskRunnerState :=
  { header := none, ports := none, processes := [], state := none }

/-- The fresh dispatcher built by `from_file`: no handlers registered. -/
def emptyDispatcher : Dispatcher :=
  { state_handlers := [], universal_handlers := [], port_handlers := [] }

/-- Whether an error is one of the dispatcher's own error classes
(a subclass of `TaskCkptDispatcher.Error`), i.e. caught by `from_file`. -/
def isDispatcherError : CkptError → Bool
  | .errorRecoveringState => true
  | .invalidStateTransition => true
  | .invalidSequenceNumber => true
  | .keyError => false
  | .typeError => false
  | .indexError => false

/-- Modelled from the spec: the Log Replay Driver fold with an explicit
recovery flag, folding a finite record sequence into a fresh empty
`TaskRunnerState` with `update_runner_state(state, record, recovery)` for
every record, mapping a dispatcher error to `none` (recovery failure) and
letting other exceptions propagate.  Used as the refinement yardstick for
the claims about `from_file`; `from_file` itself is embedded separately as
`from_file_fold`. -/
def replayFold (recovery : Bool) (records : List TaskRunnerCkpt) :
    Except CkptError (Option TaskRunnerState) :=
  go initialState records
where
  /-- Fold loop: apply each record in order to the accumulated state. -/
  go (s : TaskRunnerState) : List TaskRunnerCkpt →
      Except CkptError (Option TaskRunnerState)
    | [] => .ok (some s)
    | r :: rest =>
      let res := update_runner_state emptyDispatcher s r recovery
      match res.result with
      | .ok _ => go res.state rest
      | .error e => if isDispatcherError e then .ok none else .error e

/-- `from_file` (minus the file I/O): fold the record sequence read from the
checkpoint into a fresh `TaskRunnerState(processes = {})` with a fresh
dispatcher, calling `builder.update_runner_state(state, process_update)` —
the `recovery` parameter is left at its default `False` — returning `None`
when a `TaskCkptDispatcher.Error` is raised and letting any other exception
propagate. -/
def from_file_fold (records : List TaskRunnerCkpt) :
    Except CkptError (Option TaskRunnerState) :=
  go initialState records
where
  /-- Loop body of `from_file`: `update_runner_state(state, process_update)`
  with the default `recovery = False`. -/
  go (s : TaskRunnerState) : List TaskRunnerCkpt →
      Except CkptError (Option TaskRunnerState)
    | [] => .ok (some s)
    | r :: rest =>
      let res := update_runner_state emptyDispatcher s r false
      match res.result with
      | .ok _ => go res.state rest
      | .error e => if isDispatcherError e then .ok none else .error e

/-! ## General lemmas about the embedding -/

/-- `copy_fields` only ever raises `ErrorRecoveringState`. -/
theorem copy_fields_error_eq (ps u : ProcessState) (fs : List CkptField)
    (e : CkptError) (h : copy_fields ps u fs = .error e) :
    e = .errorRecoveringState := by
  unfold copy_fields at h
  split at h
  · cases h
  · cases h
    rfl

/-- `update_task_state` never mutates the record nor fires handlers when it
raises: every raise site precedes the `copy_fields` mutation and the
dispatch. -/
theorem uts_error_preserves (d : Dispatcher) (ps u : ProcessState) (rec : Bool)
    (e : CkptError) (h : (update_task_state d ps u rec).result = .error e) :
    (update_task_state d ps u rec).ps = ps ∧
      (update_task_state d ps u rec).events = [] := by
  cases hseq : u.seq with
  | none => simp [update_task_state, hseq]
  | some n =>
    by_cases hgate : seqGateBlocked ps u
    · cases rec
      · simp [update_task_state, hseq, hgate]
      · simp [update_task_state, hseq, hgate] at h
    · cases hrs : u.run_state with
      | none => simp [update_task_state, uts_transition, hseq, hgate, hrs] at h
      | some r =>
        by_cases heq : ps.run_state = some r
        · simp [update_task_state, uts_transition, hseq, hgate, hrs, heq]
        · by_cases hsrc : sourceOk ps.run_state r
          · cases hcopy : copy_fields ps u (requiredFields r) with
            | error e' =>
              simp [update_task_state, uts_transition, hseq, hgate, hrs, heq, hsrc, hcopy]
            | ok ps' =>
              simp [update_task_state, uts_transition, hseq, hgate, hrs, heq, hsrc, hcopy] at h
          · simp [update_task_state, uts_transition, hseq, hgate, hrs, heq, hsrc]

/-- Replacing the last element of a list by itself is the identity. -/
theorem setLast_getLast (l : List ProcessState) (t : ProcessState)
    (h : l.getLast? = some t) : setLast l t = l := by
  induction l with
  | nil => cases h
  | cons x rest ih =>
    cases rest with
    | nil =>
      simp [List.getLast?] at h
      simp [setLast, h]
    | cons y rest' =>
      rw [List.getLast?_cons_cons] at h
      simp [setLast, ih h]

/-- Overwriting a dict entry with the value it already holds is the
identity. -/
theorem setProc_lookup_self (l : List (Option String × ProcessHistory))
    (k : Option String) (v : ProcessHistory) (h : lookupProc l k = some v) :
    setProc l k v = l := by
  induction l with
  | nil => cases h
  | cons p rest ih =>
    obtain ⟨k', v'⟩ := p
    by_cases hk : k' = k
    · subst hk
      simp [lookupProc] at h
      simp [setProc, h]
    · simp [lookupProc, hk] at h
      simp [setProc, hk, ih h]

/-- Two successive writes to the same dict key collapse to the last one. -/
theorem setProc_setProc (l : List (Option String × ProcessHistory))
    (k : Option String) (v w : ProcessHistory) :
    setProc (setProc l k v) k w = setProc l k w := by
  induction l with
  | nil => simp [setProc]
  | cons p rest ih =>
    obtain ⟨k', v'⟩ := p
    by_cases hk : k' = k
    · subst hk
      simp [setProc]
    · simp [setProc, hk, ih]

/-! ## Claim theorems -/

/-- C6: for every run-state update handled by `update_task_state`, an update
with no sequence number raises `InvalidSequenceNumber`; when the current
record's sequence is greater than zero and the update's sequence is less
than or equal to it, the call returns `False` with no state change and no
handler call under `recovery = true`, and raises `InvalidSequenceNumber`
under `recovery = false`. -/
theorem sequence_number_policy (d : Dispatcher) (ps u : ProcessState) (rec : Bool) :
    (u.seq = none →
      update_task_state d ps u rec = ⟨.error .invalidSequenceNumber, ps, []⟩) ∧
    (∀ p n : Int, ps.seq = some p → 0 < p → u.seq = some n → n ≤ p →
      update_task_state d ps u rec =
        if rec then ⟨.ok false, ps, []⟩
        else ⟨.error .invalidSequenceNumber, ps, []⟩) := by
  constructor
  · intro hseq
    simp [update_task_state, hseq]
  · intro p n hp hpos hn hle
    have hgate : seqGateBlocked ps u = true := by
      simp [seqGateBlocked, hp, hn, hpos, hle]
    cases rec <;> simp [update_task_state, hn, hgate]

/-- Witness for C6 at a concrete input: current `seq = 2`, update `seq = 1`. -/
theorem sequence_number_policy_witness :
    update_task_state emptyDispatcher { seq := some 2, process := some "p", run_state := some ProcessRunState.FORKED } { seq := some 1 } true =
      ⟨.ok false, { seq := some 2, process := some "p", run_state := some ProcessRunState.FORKED }, []⟩ ∧
    update_task_state emptyDispatcher { seq := some 2, process := some "p", run_state := some ProcessRunState.FORKED } { seq := some 1 } false =
      ⟨.error .invalidSequenceNumber, { seq := some 2, process := some "p", run_state := some ProcessRunState.FORKED }, []⟩ := by
  constructor
  · have h := (sequence_number_policy emptyDispatcher
      { seq := some 2, process := some "p", run_state := some ProcessRunState.FORKED }
      { seq := some 1 } true).2 2 1 rfl (by decide) rfl (by decide)
    simpa using h
  · have h := (sequence_number_policy emptyDispatcher
      { seq := some 2, process := some "p", run_state := some ProcessRunState.FORKED }
      { seq := some 1 } false).2 2 1 rfl (by decide) rfl (by decide)
    simpa using h

/-- C10: `would_update` returns `False` for every record whose
`process_state` variant is unpopulated (whatever the other variants hold),
touching nothing — it is a pure read in this embedding — and for a populated
`process_state` naming a known process it returns exactly the Python 2
comparison `runs[-1].seq < update.seq`, independent of transition
legality. -/
theorem would_update_spec (state : TaskRunnerState) (ck : TaskRunnerCkpt) :
    (ck.process_state = none → would_update state ck = .ok false) ∧
    (∀ pu hist tail, ck.process_state = some pu →
      lookupProc state.processes pu.process = some hist →
      hist.runs.getLast? = some tail →
      would_update state ck = .ok (pyLtOpt tail.seq pu.seq)) := by
  constructor
  · intro h
    simp [would_update, h]
  · intro pu hist tail hps hl hlast
    simp [would_update, hps, hl, hlast]

/-- Witness for C10 at concrete inputs: a header-only record on a state with
a known process (returns `False`), and a stale process-state record naming
that process (`seq` not above the tail's, returns `False` regardless of the
transition being illegal). -/
theorem would_update_spec_witness :
    would_update { initialState with processes := [(some "p", { process := some "p", runs := [{ seq := some 3, process := some "p", run_state := some ProcessRunState.KILLED, stop_time := some 9 }], state := some TaskState.active })] } { runner_header := some {} } = .ok false ∧
    would_update { initialState with processes := [(some "p", { process := some "p", runs := [{ seq := some 3, process := some "p", run_state := some ProcessRunState.KILLED, stop_time := some 9 }], state := some TaskState.active })] } { process_state := some { seq := some 3, process := some "p", run_state := some ProcessRunState.KILLED, stop_time := some 4 } } = .ok false := by
  constructor
  · exact (would_update_spec _ _).1 rfl
  · have h := (would_update_spec
      { initialState with processes := [(some "p", { process := some "p", runs := [{ seq := some 3, process := some "p", run_state := some ProcessRunState.KILLED, stop_time := some 9 }], state := some TaskState.active })] }
      { process_state := some { seq := some 3, process := some "p", run_state := some ProcessRunState.KILLED, stop_time := some 4 } }).2
      { seq := some 3, process := some "p", run_state := some ProcessRunState.KILLED, stop_time := some 4 }
      { process := some "p", runs := [{ seq := some 3, process := some "p", run_state := some ProcessRunState.KILLED, stop_time := some 9 }], state := some TaskState.active }
      { seq := some 3, process := some "p", run_state := some ProcessRunState.KILLED, stop_time := some 9 }
      rfl (by decide) rfl
    simpa using h

/-- C8: for a port-allocation record — an unseen name records the binding,
invokes every registered port handler exactly once in registration order and
reports applied; a name already bound to the same port is a no-op
(`False`, no error, no state change, no handler call); a name bound to a
different port raises `ErrorRecoveringState` with no state change and no
handler call. -/
theorem port_allocation_policy (d : Dispatcher) (state : TaskRunnerState)
    (ck : TaskRunnerCkpt) (ap : PortAllocation) (rec : Bool)
    (hh : ck.runner_header = none) (hp : ck.allocated_port = some ap) :
    (lookupPort (state.ports.getD []) ap.port_name = none →
      update_runner_state d state ck rec =
        ⟨.ok true,
          { state with ports := some (state.ports.getD [] ++ [(ap.port_name, ap.port)]) },
          d.port_handlers.map (fun h => .port h ap.port_name ap.port)⟩) ∧
    (lookupPort (state.ports.getD []) ap.port_name = some ap.port →
      update_runner_state d state ck rec = ⟨.ok false, state, []⟩) ∧
    (∀ p, lookupPort (state.ports.getD []) ap.port_name = some p → p ≠ ap.port →
      update_runner_state d state ck rec = ⟨.error .errorRecoveringState, state, []⟩) := by
  refine ⟨?_, ?_, ?_⟩
  · intro hfind
    simp [update_runner_state, hh, hp, hfind, run_port_dispatch]
  · intro hfind
    simp [update_runner_state, hh, hp, hfind]
  · intro p hfind hne
    simp [update_runner_state, hh, hp, hfind, hne]

/-- Witness for C8 at concrete inputs with two registered port handlers:
fresh allocation (both handlers fire once), duplicate same-port allocation
(no-op), conflicting allocation (error). -/
theorem port_allocation_policy_witness :
    update_runner_state ⟨[], [], [5, 6]⟩ initialState { allocated_port := some { port_name := some "http", port := some 80 } } false =
      ⟨.ok true, { initialState with ports := some [(some "http", some 80)] },
        [.port 5 (some "http") (some 80), .port 6 (some "http") (some 80)]⟩ ∧
    update_runner_state ⟨[], [], [5, 6]⟩ { initialState with ports := some [(some "http", some 80)] } { allocated_port := some { port_name := some "http", port := some 80 } } false =
      ⟨.ok false, { initialState with ports := some [(some "http", some 80)] }, []⟩ ∧
    update_runner_state ⟨[], [], [5, 6]⟩ { initialState with ports := some [(some "http", some 80)] } { allocated_port := some { port_name := some "http", port := some 81 } } false =
      ⟨.error .errorRecoveringState, { initialState with ports := some [(some "http", some 80)] }, []⟩ := by
  refine ⟨?_, ?_, ?_⟩
  · have h := (port_allocation_policy ⟨[], [], [5, 6]⟩ initialState
      { allocated_port := some { port_name := some "http", port := some 80 } }
      { port_name := some "http", port := some 80 } false rfl rfl).1 (by decide)
    simpa [initialState] using h
  · have h := (port_allocation_policy ⟨[], [], [5, 6]⟩
      { initialState with ports := some [(some "http", some 80)] }
      { allocated_port := some { port_name := some "http", port := some 80 } }
      { port_name := some "http", port := some 80 } false rfl rfl).2.1 (by decide)
    simpa using h
  · have h := (port_allocation_policy ⟨[], [], [5, 6]⟩
      { initialState with ports := some [(some "http", some 80)] }
      { allocated_port := some { port_name := some "http", port := some 81 } }
      { port_name := some "http", port := some 81 } false rfl rfl).2.2 (some 80) (by decide) (by decide)
    simpa using h

/-- C9 counterexample: a history-state update naming an unknown process on
the empty state fails with the Python `KeyError` from
`state.processes[process_name]`, which is not the dispatcher's
`ErrorRecoveringState` error class (nor any `TaskCkptDispatcher.Error`). -/
theorem history_state_unknown_process_keyerror_cex :
    (update_runner_state emptyDispatcher initialState { history_state_update := some { process := some "p", state := some TaskState.failed } } false).result = .error .keyError ∧
    CkptError.keyError ≠ CkptError.errorRecoveringState ∧
    isDispatcherError .keyError = false := by
  refine ⟨by decide, by decide, by decide⟩

/-- C9 amended: a history-state update whose named process is not in
`state.processes` propagates the dict lookup failure (`KeyError`) — not a
dispatcher error — leaving the state unchanged with no handler call. -/
theorem history_state_unknown_process_propagates_lookup (d : Dispatcher)
    (state : TaskRunnerState) (ck : TaskRunnerCkpt) (hu : TaskRunStateUpdate)
    (rec : Bool) (h1 : ck.runner_header = none) (h2 : ck.allocated_port = none)
    (h3 : ck.state_update = none) (h4 : ck.history_state_update = some hu)
    (h5 : lookupProc state.processes hu.process = none) :
    update_runner_state d state ck rec = ⟨.error .keyError, state, []⟩ := by
  simp [update_runner_state, h1, h2, h3, h4, h5]

/-- Witness for the C9 amended theorem at a concrete input. -/
theorem history_state_unknown_process_propagates_lookup_witness :
    update_runner_state emptyDispatcher initialState { history_state_update := some { process := some "q", state := some TaskState.active } } true =
      ⟨.error .keyError, initialState, []⟩ :=
  history_state_unknown_process_propagates_lookup emptyDispatcher initialState
    { history_state_update := some { process := some "q", state := some TaskState.active } }
    { process := some "q", state := some TaskState.active } true rfl rfl rfl rfl rfl

/-- The run record produced for a fresh process: the synthesized WAITING
update of `transition_to_waiting` at sequence 0, which is also what the new
run looks like after the state machine applies it. -/
def waitingRun (nm : String) : ProcessState :=
  { seq := some 0, process := some nm, run_state := some ProcessRunState.WAITING }

/-- C2 counterexample: a FORKED update (seq 5, fork fields set) for a process
the state has never seen is reported applied, but the new run holds the
synthesized WAITING record at sequence 0 — the supplied update's run-state
and fields are discarded, not validated and copied as the claim states
(validating the supplied FORKED update against the fresh run would have
raised `InvalidStateTransition`). -/
theorem unknown_process_ignores_supplied_update_cex :
    update_runner_state emptyDispatcher initialState { process_state := some { seq := some 5, process := some "p", run_state := some ProcessRunState.FORKED, fork_time := some 10, runner_pid := some 20 } } false =
      ⟨.ok true, { initialState with processes := [(some "p", { process := some "p", runs := [waitingRun "p"], state := some TaskState.active })] }, []⟩ ∧
    (waitingRun "p").run_state ≠ some ProcessRunState.FORKED ∧
    (waitingRun "p").fork_time = none := by
  refine ⟨by decide, by decide, by decide⟩

/-- C2 amended: for a process-state record naming an unknown process, a new
`ProcessHistory` (history state ACTIVE) is created with a run seeded at
sequence 0, and the run-state machine is run against the *synthesized*
WAITING update at sequence 0 (carrying only seq, process and run-state);
the supplied update's run-state and other fields are discarded.  The apply
always succeeds when the process name is set. -/
theorem unknown_process_synthesizes_waiting_run (d : Dispatcher)
    (state : TaskRunnerState) (ck : TaskRunnerCkpt) (pu : ProcessState)
    (nm : String) (rec : Bool)
    (h1 : ck.runner_header = none) (h2 : ck.allocated_port = none)
    (h3 : ck.state_update = none) (h4 : ck.history_state_update = none)
    (h5 : ck.process_state = some pu) (h6 : pu.process = some nm)
    (h7 : lookupProc state.processes (some nm) = none) :
    update_runner_state d state ck rec =
      ⟨.ok true,
        { state with processes := setProc state.processes (some nm) { process := some nm, runs := [waitingRun nm], state := some TaskState.active } },
        run_state_dispatch d (some ProcessRunState.WAITING) (waitingRun nm)⟩ := by
  simp only [update_runner_state, h1, h2, h3, h4, h5, h6, h7]
  simp [update_task_state, seqGateBlocked, uts_transition, sourceOk, copy_fields,
    check_nonempty_fields, fieldPresent, requiredFields, setFieldFrom, waitingRun,
    setProc_setProc]

/-- Witness for the C2 amended theorem at a concrete input (a supplied LOST
update at sequence 9 for a fresh process). -/
theorem unknown_process_synthesizes_waiting_run_witness :
    update_runner_state emptyDispatcher initialState { process_state := some { seq := some 9, process := some "w", run_state := some ProcessRunState.LOST } } true =
      ⟨.ok true,
        { initialState with processes := [(some "w", { process := some "w", runs := [waitingRun "w"], state := some TaskState.active })] },
        []⟩ := by
  have h := unknown_process_synthesizes_waiting_run emptyDispatcher initialState
    { process_state := some { seq := some 9, process := some "w", run_state := some ProcessRunState.LOST } }
    { seq := some 9, process := some "w", run_state := some ProcessRunState.LOST }
    "w" true rfl rfl rfl rfl rfl rfl rfl
  simpa [initialState, setProc, run_state_dispatch, emptyDispatcher] using h

/-- C7: when the tail run of a known process is terminal, a terminal update
raises `ErrorRecoveringState` ("two consecutive terminal process states")
leaving the state untouched, and a non-terminal update appends a fresh
WAITING-seeded run so that, once applied, the new tail run carries sequence
`tailSeq + 1` — the prior runs (the terminal tail included) are preserved
unchanged, so no run ever receives two consecutive terminal run-states. -/
theorem terminal_tail_policy (d : Dispatcher) (state : TaskRunnerState)
    (ck : TaskRunnerCkpt) (pu : ProcessState) (hist : ProcessHistory)
    (tail : ProcessState) (n : Int) (rec : Bool)
    (h1 : ck.runner_header = none) (h2 : ck.allocated_port = none)
    (h3 : ck.state_update = none) (h4 : ck.history_state_update = none)
    (h5 : ck.process_state = some pu)
    (h6 : lookupProc state.processes pu.process = some hist)
    (h7 : hist.runs.getLast? = some tail)
    (h8 : is_terminal tail = true)
    (h9 : tail.seq = some n)
    (h10 : pu.process.isSome = true) :
    (is_terminal pu = true →
      update_runner_state d state ck rec = ⟨.error .errorRecoveringState, state, []⟩) ∧
    (is_terminal pu = false →
      update_runner_state d state ck rec =
        ⟨.ok true,
          { state with processes := setProc state.processes pu.process { hist with runs := hist.runs ++ [{ seq := some (n + 1), process := pu.process, run_state := some ProcessRunState.WAITING }] } },
          run_state_dispatch d (some ProcessRunState.WAITING) { seq := some (n + 1), process := pu.process, run_state := some ProcessRunState.WAITING }⟩) := by
  constructor
  · intro ht
    simp [update_runner_state, h1, h2, h3, h4, h5, h6, h7, h8, ht]
  · intro ht
    simp only [update_runner_state, h1, h2, h3, h4, h5, h6, h7, h8, h9, ht,
      if_true, if_false, Bool.false_eq_true, ite_false]
    simp [update_task_state, seqGateBlocked, Int.add_one_le_iff, uts_transition,
      sourceOk, copy_fields, check_nonempty_fields, fieldPresent, requiredFields,
      setFieldFrom, setProc_setProc, h10]

/-- Witness for C7 at concrete inputs: a state whose only process has a
KILLED tail run at sequence 3; a FINISHED update raises, a WAITING update
appends a fresh run at sequence 4. -/
theorem terminal_tail_policy_witness :
    update_runner_state emptyDispatcher { initialState with processes := [(some "p", { process := some "p", runs := [{ seq := some 3, process := some "p", run_state := some ProcessRunState.KILLED, stop_time := some 9 }], state := some TaskState.active })] } { process_state := some { seq := some 4, process := some "p", run_state := some ProcessRunState.FINISHED, stop_time := some 1, return_code := some 0 } } false =
      ⟨.error .errorRecoveringState, { initialState with processes := [(some "p", { process := some "p", runs := [{ seq := some 3, process := some "p", run_state := some ProcessRunState.KILLED, stop_time := some 9 }], state := some TaskState.active })] }, []⟩ ∧
    update_runner_state emptyDispatcher { initialState with processes := [(some "p", { process := some "p", runs := [{ seq := some 3, process := some "p", run_state := some ProcessRunState.KILLED, stop_time := some 9 }], state := some TaskState.active })] } { process_state := some { seq := some 4, process := some "p", run_state := some ProcessRunState.WAITING } } false =
      ⟨.ok true, { initialState with processes := [(some "p", { process := some "p", runs := [{ seq := some 3, process := some "p", run_state := some ProcessRunState.KILLED, stop_time := some 9 }, { seq := some 4, process := some "p", run_state := some ProcessRunState.WAITING }], state := some TaskState.active })] }, []⟩ := by
  constructor
  · have h := (terminal_tail_policy emptyDispatcher
      { initialState with processes := [(some "p", { process := some "p", runs := [{ seq := some 3, process := some "p", run_state := some ProcessRunState.KILLED, stop_time := some 9 }], state := some TaskState.active })] }
      { process_state := some { seq := some 4, process := some "p", run_state := some ProcessRunState.FINISHED, stop_time := some 1, return_code := some 0 } }
      { seq := some 4, process := some "p", run_state := some ProcessRunState.FINISHED, stop_time := some 1, return_code := some 0 }
      { process := some "p", runs := [{ seq := some 3, process := some "p", run_state := some ProcessRunState.KILLED, stop_time := some 9 }], state := some TaskState.active }
      { seq := some 3, process := some "p", run_state := some ProcessRunState.KILLED, stop_time := some 9 }
      3 false rfl rfl rfl rfl rfl (by decide) rfl rfl rfl rfl).1 rfl
    simpa using h
  · have h := (terminal_tail_policy emptyDispatcher
      { initialState with processes := [(some "p", { process := some "p", runs := [{ seq := some 3, process := some "p", run_state := some ProcessRunState.KILLED, stop_time := some 9 }], state := some TaskState.active })] }
      { process_state := some { seq := some 4, process := some "p", run_state := some ProcessRunState.WAITING } }
      { seq := some 4, process := some "p", run_state := some ProcessRunState.WAITING }
      { process := some "p", runs := [{ seq := some 3, process := some "p", run_state := some ProcessRunState.KILLED, stop_time := some 9 }], state := some TaskState.active }
      { seq := some 3, process := some "p", run_state := some ProcessRunState.KILLED, stop_time := some 9 }
      3 false rfl rfl rfl rfl rfl (by decide) rfl rfl rfl rfl).2 rfl
    simpa [setProc, run_state_dispatch, emptyDispatcher] using h

/-- C5 counterexample: a process-state record with an unset process name on
the empty state raises the dispatcher's `ErrorRecoveringState` (the
synthesized WAITING update fails `copy_fields`' nonempty check on
`process`), yet the call leaves the state mutated: `transition_to_waiting`
had already registered a new `ProcessHistory` (with its seeded run) under
the key `None` before the run-state machine raised. -/
theorem apply_not_atomic_unknown_process_cex :
    (update_runner_state emptyDispatcher initialState { process_state := some { seq := some 3, process := none, run_state := some ProcessRunState.WAITING } } false).result = .error .errorRecoveringState ∧
    (update_runner_state emptyDispatcher initialState { process_state := some { seq := some 3, process := none, run_state := some ProcessRunState.WAITING } } false).state ≠ initialState ∧
    isDispatcherError .errorRecoveringState = true := by
  refine ⟨by decide, by decide, by decide⟩

/-- C5 amended: a single `update_runner_state` call either fully commits or
fully rejects on every dispatcher-error path *except* those routed through
`transition_to_waiting` (unknown process; terminal tail with a non-terminal
update), where the new `ProcessHistory` entry or appended run is committed
before the run-state machine may still raise.  Atomic paths proved here:
header rebinding, conflicting port reassignment, any run-state-machine error
for a known process with a non-terminal tail, and two consecutive terminal
states. -/
theorem apply_atomic_outside_transition_to_waiting (d : Dispatcher)
    (state : TaskRunnerState) (ck : TaskRunnerCkpt) (rec : Bool) :
    (∀ hdr hdr0, ck.runner_header = some hdr → state.header = some hdr0 →
      update_runner_state d state ck rec = ⟨.error .errorRecoveringState, state, []⟩) ∧
    (∀ ap p, ck.runner_header = none → ck.allocated_port = some ap →
      lookupPort (state.ports.getD []) ap.port_name = some p → p ≠ ap.port →
      update_runner_state d state ck rec = ⟨.error .errorRecoveringState, state, []⟩) ∧
    (∀ pu hist tail e, ck.runner_header = none → ck.allocated_port = none →
      ck.state_update = none → ck.history_state_update = none →
      ck.process_state = some pu →
      lookupProc state.processes pu.process = some hist →
      hist.runs.getLast? = some tail → is_terminal tail = false →
      (update_task_state d tail pu rec).result = .error e →
      update_runner_state d state ck rec = ⟨.error e, state, []⟩) ∧
    (∀ pu hist tail, ck.runner_header = none → ck.allocated_port = none →
      ck.state_update = none → ck.history_state_update = none →
      ck.process_state = some pu →
      lookupProc state.processes pu.process = some hist →
      hist.runs.getLast? = some tail → is_terminal tail = true →
      is_terminal pu = true →
      update_runner_state d state ck rec = ⟨.error .errorRecoveringState, state, []⟩) := by
  refine ⟨?_, ?_, ?_, ?_⟩
  · intro hdr hdr0 hck hs
    simp [update_runner_state, hck, hs]
  · intro ap p hh hck hfind hne
    simp [update_runner_state, hh, hck, hfind, hne]
  · intro pu hist tail e hh ha hsu hhu hps hl hlast hterm herr
    have hpres := uts_error_preserves d tail pu rec e herr
    simp only [update_runner_state, hh, ha, hsu, hhu, hps, hl, hlast, hterm,
      Bool.false_eq_true, if_false]
    rw [herr, hpres.1, hpres.2, setLast_getLast hist.runs tail hlast]
    rw [show ({ hist with runs := hist.runs } : ProcessHistory) = hist from rfl,
      setProc_lookup_self state.processes pu.process hist hl]
  · intro pu hist tail hh ha hsu hhu hps hl hlast hterm hpterm
    simp [update_runner_state, hh, ha, hsu, hhu, hps, hl, hlast, hterm, hpterm]

/-- Witness for the C5 amended theorem at a concrete input: header
rebinding on a state whose header is already set. -/
theorem apply_atomic_outside_transition_to_waiting_witness :
    update_runner_state emptyDispatcher { initialState with header := some { task_id := some "t" } } { runner_header := some { task_id := some "u" } } false =
      ⟨.error .errorRecoveringState, { initialState with header := some { task_id := some "t" } }, []⟩ :=
  (apply_atomic_outside_transition_to_waiting emptyDispatcher
    { initialState with header := some { task_id := some "t" } }
    { runner_header := some { task_id := some "u" } } false).1
    { task_id := some "u" } { task_id := some "t" } rfl rfl

/-- C3 counterexample: in the WAITING → FORKED transition the required
fields `seq` and `run_state` are present on the current record (they always
are after the first transition), yet `update_task_state` applies the update
successfully — it calls `copy_fields`, which performs no absent-on-target
check (`check_and_copy_fields`, which would, is never called), so no
`ErrorRecoveringState` is raised for an already-present field. -/
theorem required_fields_not_checked_absent_cex :
    fieldPresent { seq := some 1, process := some "p", run_state := some ProcessRunState.WAITING } CkptField.seq = true ∧
    CkptField.seq ∈ requiredFields ProcessRunState.FORKED ∧
    update_task_state emptyDispatcher { seq := some 1, process := some "p", run_state := some ProcessRunState.WAITING } { seq := some 2, run_state := some ProcessRunState.FORKED, fork_time := some 5, runner_pid := some 7 } false =
      ⟨.ok true, { seq := some 2, process := some "p", run_state := some ProcessRunState.FORKED, fork_time := some 5, runner_pid := some 7 }, []⟩ := by
  refine ⟨by decide, by decide, by decide⟩

/-- C3 amended: a transition's required field set is checked on the update
only — a missing required field on the update raises `ErrorRecoveringState`
(leaving the record untouched), while fields already present on the current
record raise nothing and are simply overwritten by the copy
(`update_task_state` uses `copy_fields`, not `check_and_copy_fields`). -/
theorem copy_fields_requires_update_fields_only (d : Dispatcher)
    (ps u : ProcessState) (rec : Bool) (r : ProcessRunState) (n : Int)
    (h1 : u.seq = some n) (h2 : seqGateBlocked ps u = false)
    (h3 : u.run_state = some r) (h4 : ps.run_state ≠ some r)
    (h5 : sourceOk ps.run_state r = true) :
    (check_nonempty_fields u (requiredFields r) = false →
      update_task_state d ps u rec = ⟨.error .errorRecoveringState, ps, []⟩) ∧
    (check_nonempty_fields u (requiredFields r) = true →
      update_task_state d ps u rec =
        ⟨.ok true, (requiredFields r).foldl (fun acc f => setFieldFrom acc u f) ps,
          run_state_dispatch d (some r) u⟩) := by
  constructor
  · intro hmiss
    simp [update_task_state, h1, h2, uts_transition, h3, h4, h5, copy_fields, hmiss]
  · intro hpresent
    simp [update_task_state, h1, h2, uts_transition, h3, h4, h5, copy_fields, hpresent]

/-- Witness for the C3 amended theorem at concrete inputs: a FORKED update
missing `fork_time` fails; a complete FORKED update overwrites the current
record's already-present `seq` and `run_state`. -/
theorem copy_fields_requires_update_fields_only_witness :
    update_task_state emptyDispatcher { seq := some 1, process := some "p", run_state := some ProcessRunState.WAITING } { seq := some 2, run_state := some ProcessRunState.FORKED, runner_pid := some 7 } false =
      ⟨.error .errorRecoveringState, { seq := some 1, process := some "p", run_state := some ProcessRunState.WAITING }, []⟩ ∧
    update_task_state emptyDispatcher { seq := some 1, process := some "p", run_state := some ProcessRunState.WAITING } { seq := some 2, run_state := some ProcessRunState.FORKED, fork_time := some 5, runner_pid := some 7 } true =
      ⟨.ok true, { seq := some 2, process := some "p", run_state := some ProcessRunState.FORKED, fork_time := some 5, runner_pid := some 7 }, []⟩ := by
  constructor
  · have h := (copy_fields_requires_update_fields_only emptyDispatcher
      { seq := some 1, process := some "p", run_state := some ProcessRunState.WAITING }
      { seq := some 2, run_state := some ProcessRunState.FORKED, runner_pid := some 7 }
      false ProcessRunState.FORKED 2 rfl (by decide) rfl (by decide) (by decide)).1 (by decide)
    simpa using h
  · have h := (copy_fields_requires_update_fields_only emptyDispatcher
      { seq := some 1, process := some "p", run_state := some ProcessRunState.WAITING }
      { seq := some 2, run_state := some ProcessRunState.FORKED, fork_time := some 5, runner_pid := some 7 }
      true ProcessRunState.FORKED 2 rfl (by decide) rfl (by decide) (by decide)).2 (by decide)
    simpa [requiredFields, setFieldFrom, run_state_dispatch, emptyDispatcher] using h

/-- The edge set `update_task_state` actually accepts, written as an
explicit table for comparison with the spec's graph: the rows
WAITING → FORKED, FORKED → RUNNING, RUNNING → {FINISHED, FAILED},
{FORKED, RUNNING} → {KILLED, LOST} match the spec, but WAITING is reachable
from *any* current state other than WAITING itself (the source's WAITING
branch has no check on the current run state), not only from the absent
state. -/
def legalEdge : Option ProcessRunState → ProcessRunState → Bool
  | some .WAITING, .WAITING => false
  | _, .WAITING => true
  | some .WAITING, .FORKED => true
  | some .FORKED, .RUNNING => true
  | some .RUNNING, .FINISHED => true
  | some .RUNNING, .FAILED => true
  | some .FORKED, .KILLED => true
  | some .RUNNING, .KILLED => true
  | some .FORKED, .LOST => true
  | some .RUNNING, .LOST => true
  | _, _ => false

/-- C4 counterexample: the edge FORKED → WAITING is not in the claim's graph
(only absent → WAITING is), yet `update_task_state` accepts it — the
WAITING branch never inspects the current run state. -/
theorem forked_to_waiting_allowed_cex :
    update_task_state emptyDispatcher { seq := some 1, process := some "p", run_state := some ProcessRunState.FORKED } { seq := some 2, process := some "p", run_state := some ProcessRunState.WAITING } false =
      ⟨.ok true, { seq := some 2, process := some "p", run_state := some ProcessRunState.WAITING }, []⟩ ∧
    (update_task_state emptyDispatcher { seq := some 1, process := some "p", run_state := some ProcessRunState.FORKED } { seq := some 2, process := some "p", run_state := some ProcessRunState.WAITING } false).result ≠ .error .invalidStateTransition := by
  refine ⟨by decide, by decide⟩

/-- C4 amended: once an update passes the sequence gate, `update_task_state`
raises `InvalidStateTransition` exactly when the proposed edge is outside
the accepted graph `legalEdge` — which is the claim's graph with the
WAITING row widened to "from any state other than WAITING itself"; in
particular an update whose run-state equals the current run-state always
fails, and an accepted edge never raises `InvalidStateTransition` (it either
applies or raises `ErrorRecoveringState` over fields). -/
theorem transition_graph_characterization (d : Dispatcher)
    (ps u : ProcessState) (rec : Bool) (r : ProcessRunState) (n : Int)
    (h1 : u.seq = some n) (h2 : seqGateBlocked ps u = false)
    (h3 : u.run_state = some r) :
    (update_task_state d ps u rec).result = .error .invalidStateTransition ↔
      legalEdge ps.run_state r = false := by
  have hred : (update_task_state d ps u rec).result = (uts_transition d ps u).result := by
    simp [update_task_state, h1, h2]
  rw [hred]
  cases hc : ps.run_state with
  | none =>
    cases r <;>
      simp [uts_transition, h3, hc, sourceOk, legalEdge] <;>
      (cases hcopy : copy_fields ps u (requiredFields _) with
       | error e =>
         have he := copy_fields_error_eq ps u _ e hcopy
         simp [hcopy, he]
       | ok ps' => simp [hcopy])
  | some c =>
    cases c <;> cases r <;>
      simp [uts_transition, h3, hc, sourceOk, legalEdge] <;>
      (cases hcopy : copy_fields ps u (requiredFields _) with
       | error e =>
         have he := copy_fields_error_eq ps u _ e hcopy
         simp [hcopy, he]
       | ok ps' => simp [hcopy])

/-- Witness for the C4 amended theorem at a concrete input: a self-loop
FORKED → FORKED is not a legal edge and raises `InvalidStateTransition`. -/
theorem transition_graph_characterization_witness :
    legalEdge (some ProcessRunState.FORKED) ProcessRunState.FORKED = false ∧
    (update_task_state emptyDispatcher { seq := some 1, process := some "p", run_state := some ProcessRunState.FORKED } { seq := some 2, process := some "p", run_state := some ProcessRunState.FORKED, fork_time := some 5, runner_pid := some 7 } false).result = .error .invalidStateTransition := by
  constructor
  · decide
  · exact (transition_graph_characterization emptyDispatcher
      { seq := some 1, process := some "p", run_state := some ProcessRunState.FORKED }
      { seq := some 2, process := some "p", run_state := some ProcessRunState.FORKED, fork_time := some 5, runner_pid := some 7 }
      false ProcessRunState.FORKED 2 rfl (by decide) rfl).2 (by decide)

/-- A WAITING checkpoint record for process `p` at sequence 0. -/
def waitingCkpt : TaskRunnerCkpt :=
  { process_state := some { seq := some 0, process := some "p", run_state := some ProcessRunState.WAITING } }

/-- A FORKED checkpoint record for process `p` at sequence 1. -/
def forkedCkpt : TaskRunnerCkpt :=
  { process_state := some { seq := some 1, process := some "p", run_state := some ProcessRunState.FORKED, fork_time := some 10, runner_pid := some 20 } }

/-- C1 counterexample: on the record sequence WAITING(0), FORKED(1),
FORKED(1) — a duplicate replayed segment — `from_file` fails (returns
`None`: the duplicate raises `InvalidSequenceNumber` because
`update_runner_state` is called with its default `recovery = False`),
whereas the fold the claim describes, with `recovery = true` on every
record, succeeds.  So `from_file` does not apply records in recovery
mode. -/
theorem from_file_not_recovery_mode_cex :
    from_file_fold [waitingCkpt, forkedCkpt, forkedCkpt] = .ok none ∧
    replayFold true [waitingCkpt, forkedCkpt, forkedCkpt] ≠ .ok none := by
  refine ⟨by decide, by decide⟩

/-- C1 amended: `from_file` creates an empty `TaskState` and folds the
record sequence in order through the dispatcher, but calls
`update_runner_state(state, record)` with the `recovery` flag left at its
default `False` for every record (not `recovery = true` as claimed). -/
theorem from_file_folds_with_default_recovery (records : List TaskRunnerCkpt) :
    from_file_fold records = replayFold false records := by
  have hgo : ∀ (l : List TaskRunnerCkpt) (s : TaskRunnerState),
      from_file_fold.go s l = replayFold.go false s l := by
    intro l
    induction l with
    | nil => intro s; rfl
    | cons r rest ih =>
      intro s
      unfold from_file_fold.go replayFold.go
      cases h : (update_runner_state emptyDispatcher s r false).result with
      | ok b => simp [h, ih]
      | error e => simp [h]
  unfold from_file_fold replayFold
  exact hgo records initialState
